import Mathlib

/-!
Verification development for the kernel_ci pipeline script
(src/kernel_ci.py).  The script is a sequential orchestrator: it parses a
kernel Makefile for the version, applies patch trees, drives `make`, and
manages a libvirt virtual machine (create / start / shutdown / destroy /
ip / test) through external commands.

The embedding below is shallow: file contents, directory listings,
hypervisor listings, DHCP leases and remote-command outputs are explicit
inputs (oracles), and every external command the script would run is
recorded in a trace of `Act` values.  Python string operations are
embedded as structurally recursive Lean functions over `List Char`, so
all definitions evaluate by `decide` / `rfl` on concrete inputs.

Prerequisite checks (`dpkg -s` queries inserted by the
`check_prerequisites` decorator) are pure queries that either all pass or
abort before any work; they are assumed satisfied and are not part of the
trace.
-/

namespace KernelCI

/-- Python whitespace characters, the set used by `str.strip()` with no
argument. -/
def pyWs (c : Char) : Bool :=
  c == ' ' || c == '\t' || c == '\n' || c == '\r' || c == '\x0b' || c == '\x0c'

/-- Embedding of Python `str.strip()`: drop leading and trailing
whitespace. -/
def pyStrip (s : String) : String :=
  ⟨((s.data.dropWhile pyWs).reverse.dropWhile pyWs).reverse⟩

/-- Helper for `pySplit`: scan left to right; the current field is
accumulated in reverse, and a field is cut as soon as the scanned text
ends with the separator (equivalently, at the leftmost occurrence of the
separator, matching the Python `str.split` behavior). -/
def pySplitAux (sep : List Char) : List Char → List Char → List (List Char)
  | cur, [] => [cur.reverse]
  | cur, c :: rest =>
    let cur' := c :: cur
    if sep.reverse.isPrefixOf cur' then
      (cur'.drop sep.length).reverse :: pySplitAux sep [] rest
    else
      pySplitAux sep cur' rest

/-- Embedding of Python `str.split(sep)` for a non-empty separator. -/
def pySplit (s sep : String) : List String :=
  (pySplitAux sep.data [] s.data).map (fun l => ⟨l⟩)

/-- Helper for `pyLines`: reattach the newline to every field except the
last, and drop a trailing empty field. -/
def rejoinLines : List String → List String
  | [] => []
  | [l] => if l == "" then [] else [l]
  | l :: l' :: rest => (l ++ "\n") :: rejoinLines (l' :: rest)

/-- Embedding of Python file line iteration / `readlines()`: each line
keeps its trailing newline and the final line may lack one. -/
def pyLines (s : String) : List String :=
  rejoinLines (pySplit s "\n")

/-- Embedding of Python `str.endswith`. -/
def pyEndsWith (s suf : String) : Bool :=
  suf.data.isSuffixOf s.data

/-- Embedding of Python `str.startswith`. -/
def pyStartsWith (s pre : String) : Bool :=
  pre.data.isPrefixOf s.data

/-- One line of the version computation, Python
`line.split(" = ")[1].strip()`; a missing index 1 raises IndexError. -/
def lineField (line : String) : Except String String :=
  match (pySplit line " = ").drop 1 with
  | [] => Except.error "IndexError: list index out of range"
  | f :: _ => Except.ok (pyStrip f)

/-- Sequential evaluation of `lineField` over the selected lines; the
first failure aborts, as the lazy map consumed by `str.join` does in
Python. -/
def mapFields : List String → Except String (List String)
  | [] => Except.ok []
  | l :: ls =>
    match lineField l with
    | Except.error e => Except.error e
    | Except.ok f =>
      match mapFields ls with
      | Except.error e => Except.error e
      | Except.ok fs => Except.ok (f :: fs)

/-- Embedding of `_kernel_version` applied to the Makefile content:
`head = list(islice(k, 4))[1:]`, then join the stripped second field of
each line with dots. -/
def kernel_version_content (makefile : String) : Except String String :=
  match mapFields (((pyLines makefile).take 4).drop 1) with
  | Except.error e => Except.error e
  | Except.ok fields => Except.ok (String.intercalate "." fields)

/-- Embedding of `_kernel_version`: open `os.path.join(kernel,
"Makefile")` (the filesystem is the `readFile` oracle) and parse the
content. -/
def _kernel_version (readFile : String → Option String) (kernel : String) :
    Except String String :=
  match readFile (kernel ++ "/Makefile") with
  | none => Except.error ("FileNotFoundError: " ++ kernel ++ "/Makefile")
  | some content => kernel_version_content content

theorem lineField_ok (l : String) (h : 2 ≤ (pySplit l " = ").length) :
    lineField l = Except.ok (pyStrip (((pySplit l " = ").drop 1).headD "")) := by
  unfold lineField
  cases hd : (pySplit l " = ").drop 1 with
  | nil =>
    have := congrArg List.length hd
    simp [List.length_drop] at this
    omega
  | cons f fs => simp [hd]

theorem lineField_error (l : String) (h : (pySplit l " = ").length < 2) :
    lineField l = Except.error "IndexError: list index out of range" := by
  unfold lineField
  cases hd : (pySplit l " = ").drop 1 with
  | nil => simp [hd]
  | cons f fs =>
    have := congrArg List.length hd
    simp [List.length_drop] at this
    omega

theorem mapFields_ok (ls : List String)
    (h : ∀ l ∈ ls, 2 ≤ (pySplit l " = ").length) :
    mapFields ls =
      Except.ok (ls.map fun l => pyStrip (((pySplit l " = ").drop 1).headD "")) := by
  induction ls with
  | nil => rfl
  | cons l ls ih =>
    have hl := lineField_ok l (h l (by simp))
    have hrest : ∀ x ∈ ls, 2 ≤ (pySplit x " = ").length := by
      intro x hx
      exact h x (by simp [hx])
    simp [mapFields, hl, ih hrest]

theorem mapFields_error_iff (ls : List String) :
    (∃ e, mapFields ls = Except.error e) ↔
      ∃ l ∈ ls, (pySplit l " = ").length < 2 := by
  induction ls with
  | nil => simp [mapFields]
  | cons l ls ih =>
    by_cases hl : (pySplit l " = ").length < 2
    · have := lineField_error l hl
      simp only [mapFields, this]
      constructor
      · intro _
        exact ⟨l, by simp, hl⟩
      · intro _
        exact ⟨"IndexError: list index out of range", rfl⟩
    · have h2 : 2 ≤ (pySplit l " = ").length := by omega
      have := lineField_ok l h2
      simp only [mapFields, this]
      constructor
      · intro ⟨e, he⟩
        rcases hm : mapFields ls with e' | fs
        · exact (ih.mp ⟨e', hm⟩).elim fun x hx => ⟨x, by simp [hx.1], hx.2⟩
        · rw [hm] at he
          simp at he
      · intro ⟨x, hx, hxlen⟩
        rcases List.mem_cons.mp hx with rfl | hx'
        · omega
        · obtain ⟨e, he⟩ := ih.mpr ⟨x, hx', hxlen⟩
          rw [he]
          exact ⟨e, rfl⟩

/-- C2: for every kernel build manifest with at least four lines whose
lines 2 through 4 each contain the separator " = ", the version operation
returns the " = "-separated value fields of lines 2 through 4, stripped
of surrounding whitespace and joined with dots; in particular manifest
lines "VERSION = 5", "PATCHLEVEL = 10", "SUBLEVEL = 0" on lines 2-4
yield the string "5.10.0". -/
theorem c2_kernel_version_fields :
    (∀ makefile : String,
      4 ≤ (pyLines makefile).length →
      (∀ l ∈ ((pyLines makefile).take 4).drop 1, 2 ≤ (pySplit l " = ").length) →
      kernel_version_content makefile =
        Except.ok (String.intercalate "."
          ((((pyLines makefile).take 4).drop 1).map
            fun l => pyStrip (((pySplit l " = ").drop 1).headD "")))) ∧
    kernel_version_content
        "# SPDX-License-Identifier: GPL-2.0\nVERSION = 5\nPATCHLEVEL = 10\nSUBLEVEL = 0\nEXTRAVERSION =\nNAME = Dare mighty things\n" =
      Except.ok "5.10.0" := by
  constructor
  · intro makefile _ h
    unfold kernel_version_content
    rw [mapFields_ok _ h]
  · rfl

/-- C2 witness: a concrete manifest instantiating the universal part of
the claim theorem. -/
theorem c2_witness :
    kernel_version_content "L1\nA = 1\nB = 2\nC = 3\n" = Except.ok "1.2.3" := by
  have h := c2_kernel_version_fields.1 "L1\nA = 1\nB = 2\nC = 3\n"
    (by decide) (by decide)
  exact h.trans (by rfl)

/-- C3 counterexample: a manifest with only three lines does not make the
version operation fail; it returns the join of the two fields present. -/
theorem c3_counterexample :
    kernel_version_content "L1\nA = 1\nB = 2" = Except.ok "1.2" ∧
      (pyLines "L1\nA = 1\nB = 2").length < 4 := by
  exact ⟨rfl, by decide⟩

/-- C3 amended: the version operation fails exactly when one of the lines
that exist among lines 2 through 4 lacks the " = " separator; a manifest
shorter than 4 lines does not by itself fail, the missing lines are
simply skipped (an empty or one-line manifest yields the empty version
string). -/
theorem c3_amended_error_iff_malformed (makefile : String) :
    (∃ e, kernel_version_content makefile = Except.error e) ↔
      ∃ l ∈ ((pyLines makefile).take 4).drop 1, (pySplit l " = ").length < 2 := by
  unfold kernel_version_content
  rcases hm : mapFields (((pyLines makefile).take 4).drop 1) with e | fs
  · simp only [hm]
    constructor
    · intro _
      exact (mapFields_error_iff _).mp ⟨e, hm⟩
    · intro _
      exact ⟨e, rfl⟩
  · simp only [hm]
    constructor
    · intro ⟨e', he'⟩
      simp at he'
    · intro hex
      obtain ⟨e', he'⟩ := (mapFields_error_iff _).mpr hex
      rw [he'] at hm
      simp at hm

/-- C3 witness: the amended theorem applied at a manifest whose third
line lacks the separator. -/
theorem c3_amended_witness :
    ∃ e, kernel_version_content "L1\nA = 1\nnosep" = Except.error e := by
  exact (c3_amended_error_iff_malformed "L1\nA = 1\nnosep").mpr
    ⟨"nosep", by decide, by decide⟩

/-- The enumeration KernelConfigs of kernel_ci.py. -/
inductive KernelConfigs where
  | DEFCONFIG
  | DEBCONFIG
deriving DecidableEq, Repr

/-- The string value carried by each KernelConfigs member. -/
def KernelConfigs.value : KernelConfigs → String
  | .DEFCONFIG => "defconfig"
  | .DEBCONFIG => "debconfig"

/-- External build commands issued by kernel_make.  `make dir args`
stands for `sh.make("-C", dir, *args)` and `cp src dst` for
`sh.cp(src, dst)`. -/
inductive Cmd where
  | make (dir : String) (args : List String)
  | cp (src dst : String)
deriving DecidableEq, Repr

/-- Embedding of kernel_make.  `exec` is the outcome oracle for each
external command (`sh` raises on a non-zero exit, aborting the rest).
The result is the list of commands attempted, in order, and whether all
of them succeeded.  `config` is the string click passes for the
`--config` choice. -/
def kernel_make (exec : Cmd → Bool) (kernel config config_path : String) :
    List Cmd × Bool :=
  let c1 := Cmd.make kernel ["clean"]
  if exec c1 = false then ([c1], false)
  else if config == KernelConfigs.DEBCONFIG.value then
    let c2 := Cmd.cp config_path (kernel ++ "/.config")
    if exec c2 = false then ([c1, c2], false)
    else
      let c3 := Cmd.make kernel ["olddefconfig"]
      if exec c3 = false then ([c1, c2, c3], false)
      else
        let c4 := Cmd.make kernel ["-j", "8", "bindeb-pkg"]
        ([c1, c2, c3, c4], exec c4)
  else
    let c2 := Cmd.make kernel ["defconfig"]
    if exec c2 = false then ([c1, c2], false)
    else
      let c3 := Cmd.make kernel ["-j", "8"]
      ([c1, c2, c3], exec c3)

/-- Modelled from the spec sentence for the build step: the command
sequence the builder is supposed to run, clean first, then either the
default-configuration steps or the package-build steps. -/
def kernel_make_cmds (kernel config config_path : String) : List Cmd :=
  Cmd.make kernel ["clean"] ::
    (if config == "debconfig" then
      [Cmd.cp config_path (kernel ++ "/.config"),
       Cmd.make kernel ["olddefconfig"],
       Cmd.make kernel ["-j", "8", "bindeb-pkg"]]
    else
      [Cmd.make kernel ["defconfig"],
       Cmd.make kernel ["-j", "8"]])

/-- Modelled from the spec sentence "a failure in any step aborts the
remaining steps": run a command list in order, stopping at the first
failing command, which is still recorded as attempted. -/
def runSeq (exec : Cmd → Bool) : List Cmd → List Cmd × Bool
  | [] => ([], true)
  | c :: rest =>
    if exec c then
      let r := runSeq exec rest
      (c :: r.1, r.2)
    else ([c], false)

/-- C8: for every kernel root, the build operation runs the clean target
first; for the default choice it then runs the default-configuration
target and a build with exactly 8 parallel jobs, and for the
package-build choice it copies the supplied configuration into the tree
as ".config", runs the old-config-defaults normalization and builds the
Debian binary-package target with 8 jobs; a failure in any step aborts
the remaining steps. -/
theorem c8_kernel_make_steps (exec : Cmd → Bool) (kernel config config_path : String) :
    kernel_make exec kernel config config_path =
      runSeq exec (kernel_make_cmds kernel config config_path) := by
  unfold kernel_make kernel_make_cmds KernelConfigs.value
  by_cases hc : config == "debconfig"
  · simp only [hc, if_true]
    rcases h1 : exec (Cmd.make kernel ["clean"]) <;>
      rcases h2 : exec (Cmd.cp config_path (kernel ++ "/.config")) <;>
        rcases h3 : exec (Cmd.make kernel ["olddefconfig"]) <;>
          rcases h4 : exec (Cmd.make kernel ["-j", "8", "bindeb-pkg"]) <;>
            simp [runSeq, h1, h2, h3, h4]
  · simp only [hc, if_false, Bool.false_eq_true]
    rcases h1 : exec (Cmd.make kernel ["clean"]) <;>
      rcases h2 : exec (Cmd.make kernel ["defconfig"]) <;>
        rcases h3 : exec (Cmd.make kernel ["-j", "8"]) <;>
          simp [runSeq, h1, h2, h3, hc]

/-- The header-package filter of vm_test:
`f.endswith(".deb") and f.startswith("linux-headers-" + version)`. -/
def headerMatches (version f : String) : Bool :=
  pyEndsWith f ".deb" && pyStartsWith f ("linux-headers-" ++ version)

/-- The image-package filter of vm_test:
`f.endswith(".deb") and f.startswith("linux-image-" + version + "_")`. -/
def imageMatches (version f : String) : Bool :=
  pyEndsWith f ".deb" && pyStartsWith f ("linux-image-" ++ version ++ "_")

/-- Embedding of the package-discovery block of vm_test (lines 206-214):
filter the directory listing with each pattern, raise FileNotFoundError
when a filter is empty, otherwise take element 0 of each filter
result. -/
def discoverPackages (version : String) (files : List String) :
    Except String (String × String) :=
  match files.filter (headerMatches version) with
  | [] => Except.error "no kernel headers"
  | header :: _ =>
    match files.filter (imageMatches version) with
    | [] => Except.error "no installation kernel image"
    | image :: _ => Except.ok (header, image)

theorem head?_filter_eq_find? (p : α → Bool) (l : List α) :
    (l.filter p).head? = l.find? p := by
  induction l with
  | nil => rfl
  | cons a l ih =>
    simp only [List.filter_cons, List.find?_cons]
    split <;> simp_all

/-- C9: in the package discovery of vm_test, a header package is any entry
ending in ".deb" and beginning with "linux-headers-<version>", an image
package any entry ending in ".deb" and beginning with
"linux-image-<version>_"; when several entries match, the first match in
listing order is selected (no ambiguity failure), and a not-found error
is raised exactly when a pattern matches no entry. -/
theorem c9_discover_packages_selection (version : String) (files : List String) :
    (discoverPackages version files = Except.error "no kernel headers" ↔
      ∀ f ∈ files, headerMatches version f = false) ∧
    (discoverPackages version files = Except.error "no installation kernel image" ↔
      (∃ f ∈ files, headerMatches version f = true) ∧
        ∀ f ∈ files, imageMatches version f = false) ∧
    (∀ h i, discoverPackages version files = Except.ok (h, i) ↔
      files.find? (headerMatches version) = some h ∧
        files.find? (imageMatches version) = some i) := by
  unfold discoverPackages
  rcases hh : files.filter (headerMatches version) with _ | ⟨h0, hs⟩ <;>
    rcases hi : files.filter (imageMatches version) with _ | ⟨i0, is'⟩
  · have hall := List.filter_eq_nil_iff.mp hh
    have iall := List.filter_eq_nil_iff.mp hi
    refine ⟨by simpa using fun f hf => by simpa using hall f hf, ?_, ?_⟩
    · simp only [true_iff, iff_true_intro rfl]
      constructor
      · intro he
        simp at he
      · intro ⟨⟨f, hf, hmat⟩, _⟩
        exact absurd hmat (by simpa using hall f hf)
    · intro h i
      have hn : files.find? (headerMatches version) = none := by
        rw [← head?_filter_eq_find?, hh]; rfl
      simp [hn]
  · have hall := List.filter_eq_nil_iff.mp hh
    refine ⟨by simpa using fun f hf => by simpa using hall f hf, ?_, ?_⟩
    · constructor
      · intro he
        simp at he
      · intro ⟨⟨f, hf, hmat⟩, _⟩
        exact absurd hmat (by simpa using hall f hf)
    · intro h i
      have hn : files.find? (headerMatches version) = none := by
        rw [← head?_filter_eq_find?, hh]; rfl
      simp [hn]
  · have iall := List.filter_eq_nil_iff.mp hi
    have hmem : h0 ∈ files.filter (headerMatches version) := by
      rw [hh]; exact List.mem_cons_self _ _
    have hmem' := List.mem_filter.mp hmem
    refine ⟨?_, ?_, ?_⟩
    · constructor
      · intro he
        simp at he
      · intro hall
        exact absurd (hall h0 hmem'.1) (by simp [hmem'.2])
    · constructor
      · intro _
        exact ⟨⟨h0, hmem'.1, hmem'.2⟩, fun f hf => by simpa using iall f hf⟩
      · intro _
        rfl
    · intro h i
      constructor
      · intro he
        simp at he
      · intro ⟨_, hfind⟩
        rw [← head?_filter_eq_find?, hi] at hfind
        simp at hfind
  · have hmem : h0 ∈ files.filter (headerMatches version) := by
      rw [hh]; exact List.mem_cons_self _ _
    have hmem' := List.mem_filter.mp hmem
    refine ⟨?_, ?_, ?_⟩
    · constructor
      · intro he
        simp at he
      · intro hall
        exact absurd (hall h0 hmem'.1) (by simp [hmem'.2])
    · constructor
      · intro he
        simp at he
      · intro ⟨_, iall⟩
        have : i0 ∈ files.filter (imageMatches version) := by
          rw [hi]; exact List.mem_cons_self _ _
        have := List.mem_filter.mp this
        exact absurd (iall i0 this.1) (by simp [this.2])
    · intro h i
      have hfh : files.find? (headerMatches version) = some h0 := by
        rw [← head?_filter_eq_find?, hh]; rfl
      have hfi : files.find? (imageMatches version) = some i0 := by
        rw [← head?_filter_eq_find?, hi]; rfl
      constructor
      · intro he
        have := Except.ok.inj he
        have h1 : h0 = h := congrArg Prod.fst this
        have h2 : i0 = i := congrArg Prod.snd this
        rw [hfh, hfi, h1, h2]
        exact ⟨rfl, rfl⟩
      · intro ⟨e1, e2⟩
        rw [hfh] at e1
        rw [hfi] at e2
        simp only [Option.some.injEq] at e1 e2
        rw [← e1, ← e2]

/-- C9 witness: a listing with two matching header packages and one image
package selects the first header match and the image. -/
theorem c9_witness :
    discoverPackages "5.10.0"
        ["linux-headers-5.10.0-a.deb", "linux-headers-5.10.0-b.deb",
         "linux-image-5.10.0_1_amd64.deb"] =
      Except.ok ("linux-headers-5.10.0-a.deb", "linux-image-5.10.0_1_amd64.deb") := by
  exact ((c9_discover_packages_selection "5.10.0"
      ["linux-headers-5.10.0-a.deb", "linux-headers-5.10.0-b.deb",
       "linux-image-5.10.0_1_amd64.deb"]).2.2 _ _).mpr ⟨by decide, by decide⟩

/-- A DHCP lease entry, the fields of the lease dict used by vm_ip. -/
structure Lease where
  hostname : String
  ipaddr : String
deriving DecidableEq, Repr

/-- The external environment of the VM operations: hypervisor listings
per connection uri, filesystem existence and contents, directory
listings, DHCP leases per (uri, network), and remote command output and
error streams per (ip, command). -/
structure World where
  listings : String → String
  fsExists : String → Bool
  readFile : String → Option String
  listdir : String → List String
  leases : String → String → List Lease
  sshOut : String → String → String
  sshErr : String → String → String

/-- External actions performed by the VM operations, in order. -/
inductive Act where
  | virshList (uri : String)
  | virshStart (uri name : String)
  | virshShutdown (uri name : String)
  | virshUndefine (uri name : String) (flags : List String)
  | virtInstall (uri : String) (args : List String)
  | leasesQuery (uri network : String)
  | sleep (seconds : Nat)
  | sshConnect (ip login password : String)
  | scpPut (src dst : String)
  | sshExec (ip cmd : String)
  | printOut (s : String)
  | warn (s : String)
deriving DecidableEq, Repr

/-- Hypervisor-mutating actions: start, shutdown, undefine and
virt-install; listing and lease queries are read-only. -/
def Act.isMutation : Act → Bool
  | .virshStart _ _ => true
  | .virshShutdown _ _ => true
  | .virshUndefine _ _ _ => true
  | .virtInstall _ _ => true
  | _ => false

/-- Recognizer for the VM start command. -/
def Act.isStart : Act → Bool
  | .virshStart _ _ => true
  | _ => false

/-- Recognizer for the VM shutdown command. -/
def Act.isShutdown : Act → Bool
  | .virshShutdown _ _ => true
  | _ => false

/-- The existence test of vm_exists on a listing string:
`vmlist.getvalue().split("\n").count(vm_name) == 1`. -/
def vmExistsB (listing vm_name : String) : Bool :=
  (pySplit listing "\n").count vm_name == 1

/-- Embedding of vm_exists: run `virsh list --all --name` at the
connection uri and test whether the name occurs as a whole line exactly
once. -/
def vm_exists (w : World) (vm_name uri : String) : List Act × Bool :=
  ([Act.virshList uri], vmExistsB (w.listings uri) vm_name)

/-- Python `kwargs.get(key, default)` on a keyword-argument list. -/
def kwargsGet (kwargs : List (String × String)) (key dflt : String) : String :=
  match List.lookup key kwargs with
  | some v => v
  | none => dflt

/-- Effective value of a parameter bound positionally at index i, by the
keyword key, or by its default, in that order (Python call binding). -/
def argGet (pos : List String) (i : Nat) (kwargs : List (String × String))
    (key dflt : String) : String :=
  match pos[i]? with
  | some v => v
  | none => kwargsGet kwargs key dflt

/-- Embedding of the check_vm_absence decorator: the guard reads only
the keyword arguments, `kwargs.get("name", "debian10")` and
`kwargs.get("uri", "qemu:///system")`, re-queries existence there and
raises when that VM is not found; otherwise the wrapped callback runs. -/
def check_vm_absence (w : World) (kwargs : List (String × String))
    (callback : List Act × Except String α) : List Act × Except String α :=
  let vm := kwargsGet kwargs "name" "debian10"
  let uri := kwargsGet kwargs "uri" "qemu:///system"
  let q := vm_exists w vm uri
  if q.2 = false then
    (q.1, Except.error ("Virtual machine " ++ vm ++ " not found"))
  else
    (q.1 ++ callback.1, callback.2)

/-- Embedding of vm_start, called with positional arguments pos and
keyword arguments kwargs. -/
def vm_start (w : World) (pos : List String) (kwargs : List (String × String)) :
    List Act × Except String Unit :=
  check_vm_absence w kwargs
    (let name := argGet pos 0 kwargs "name" "debian10"
     let uri := argGet pos 1 kwargs "uri" "qemu:///system"
     ([Act.virshStart uri name], Except.ok ()))

/-- Embedding of vm_shutdown, called with positional arguments pos and
keyword arguments kwargs. -/
def vm_shutdown (w : World) (pos : List String) (kwargs : List (String × String)) :
    List Act × Except String Unit :=
  check_vm_absence w kwargs
    (let name := argGet pos 0 kwargs "name" "debian10"
     let uri := argGet pos 1 kwargs "uri" "qemu:///system"
     ([Act.virshShutdown uri name], Except.ok ()))

/-- Embedding of vm_destroy (undefine with full storage removal). -/
def vm_destroy (w : World) (pos : List String) (kwargs : List (String × String)) :
    List Act × Except String Unit :=
  check_vm_absence w kwargs
    (let name := argGet pos 0 kwargs "name" "debian10"
     let uri := argGet pos 1 kwargs "uri" "qemu:///system"
     ([Act.virshUndefine uri name
        ["--managed-save", "--snapshots-metadata", "--checkpoints-metadata",
         "--nvram", "--remove-all-storage"]], Except.ok ()))

/-- Embedding of vm_ip: query the DHCP leases of the network, filter
by hostname and return the address of the first matching lease. -/
def vm_ip (w : World) (pos : List String) (kwargs : List (String × String)) :
    List Act × Except String String :=
  check_vm_absence w kwargs
    (let name := argGet pos 0 kwargs "name" "debian10"
     let hostname := argGet pos 1 kwargs "hostname" "debian"
     let uri := argGet pos 2 kwargs "uri" "qemu:///system"
     let network := argGet pos 3 kwargs "network" "default"
     match (w.leases uri network).filter (fun l => l.hostname == hostname) with
     | [] =>
       ([Act.leasesQuery uri network],
        Except.error ("can\x27t obtain VM ip; please be sure that network " ++
          network ++ " started and VM " ++ name ++ " launched"))
     | l :: _ => ([Act.leasesQuery uri network], Except.ok l.ipaddr))

/-- Embedding of os.path.splitext: split off the extension at the last
dot of the final path component, ignoring leading dots of that
component. -/
def splitext (p : String) : String × String :=
  let base := (pySplit p "/").getLastD ""
  let lead := (base.data.takeWhile (fun c => c == '.')).length
  let rest := base.data.drop lead
  if rest.contains '.' then
    let extLen := (base.data.reverse.takeWhile (fun c => c != '.')).length + 1
    (⟨p.data.take (p.data.length - extLen)⟩, ⟨p.data.drop (p.data.length - extLen)⟩)
  else (p, "")

/-- Embedding of vm_create (the vm-create CLI entry point; click passes
every parameter, so they appear directly). -/
def vm_create (w : World) (img uri name : String) (vcpus memory : Nat)
    (os_variant : String) : List Act × Except String Unit :=
  let ext := (splitext img).2
  let q := vm_exists w name uri
  if q.2 then
    (q.1, Except.error ("Virtual machine " ++ name ++ " already exists"))
  else if w.fsExists img = false then
    (q.1, Except.error ("FileNotFoundError: " ++ img))
  else
    (q.1 ++ [Act.virtInstall uri
      ["--name=" ++ name, "--vcpus=" ++ toString vcpus,
       "--memory=" ++ toString memory, "--disk",
       "path=" ++ img ++ ",format=" ++ ext, "--os-variant=" ++ os_variant,
       "--import", "--noautoconsole", "--noreboot"]],
     Except.ok ())

/-- The remote log query of vm_test. -/
def dmesgCmd : String := "dmesg -HTl emerg,alert,crit,err"

/-- The body of vm_test inside its guards (kernel_ci.py lines 197-264).
The inner lifecycle calls `vm_start(name, uri)`, `vm_ip(name, hostname,
uri, network)` and `vm_shutdown(name, uri)` are positional, as in the
source. -/
def vm_test_body (w : World) (pos : List String) (kwargs : List (String × String)) :
    List Act × Except String Unit :=
  let kernel := argGet pos 0 kwargs "kernel" ""
  let debpkg := argGet pos 1 kwargs "debpkg" ""
  let name := argGet pos 2 kwargs "name" "debian10"
  let hostname := argGet pos 3 kwargs "hostname" "debian"
  let login := argGet pos 4 kwargs "login" "root"
  let password := argGet pos 5 kwargs "password" "debian"
  let uri := argGet pos 6 kwargs "uri" "qemu:///system"
  let network := argGet pos 7 kwargs "network" "default"
  match _kernel_version w.readFile kernel with
  | Except.error e => ([], Except.error e)
  | Except.ok version =>
    if w.fsExists debpkg = false then
      ([], Except.error ("FileNotFoundError: " ++ debpkg))
    else
      match discoverPackages version (w.listdir debpkg) with
      | Except.error e => ([], Except.error e)
      | Except.ok (header, image) =>
        let acts0 := [Act.printOut ("Found images " ++ image ++ " and " ++ header)]
        let st := vm_start w [name, uri] []
        match st.2 with
        | Except.error e => (acts0 ++ st.1, Except.error e)
        | Except.ok _ =>
          let ipq := vm_ip w [name, hostname, uri, network] []
          match ipq.2 with
          | Except.error e =>
            (acts0 ++ st.1 ++ [Act.sleep 90] ++ ipq.1, Except.error e)
          | Except.ok ip =>
            let root_path := if login == "root" then "/root" else "/home/" ++ login
            let installCmd := "dpkg -i " ++ header ++ " " ++ image
            let acts1 := acts0 ++ st.1 ++ [Act.sleep 90] ++ ipq.1 ++
              [Act.printOut ("Obtained VM IP " ++ ip),
               Act.sshConnect ip login password,
               Act.scpPut (debpkg ++ "/" ++ image) (root_path ++ "/" ++ image),
               Act.printOut "",
               Act.scpPut (debpkg ++ "/" ++ header) (root_path ++ "/" ++ header),
               Act.sleep 30,
               Act.printOut "\nUploaded kernel installation images",
               Act.sshExec ip installCmd,
               Act.printOut (w.sshOut ip installCmd),
               Act.printOut (w.sshErr ip installCmd),
               Act.sshExec ip "reboot",
               Act.printOut (w.sshOut ip "reboot"),
               Act.printOut (w.sshErr ip "reboot"),
               Act.sleep 90,
               Act.sshConnect ip login password,
               Act.sshExec ip dmesgCmd]
            let errors := w.sshOut ip dmesgCmd
            let acts2 := acts1 ++
              [Act.printOut errors, Act.printOut (w.sshErr ip dmesgCmd)]
            if errors != "" then
              let boot_errors :=
                ((pySplit errors "\n").filter (fun line => line != "")).length
              (acts2 ++
                [Act.warn ("WARN: there are " ++ toString boot_errors ++ " boot errors")],
               Except.ok ())
            else
              let sd := vm_shutdown w [name, uri] []
              (acts2 ++ sd.1, sd.2)

/-- Embedding of vm_test (CLI entry point): the check_vm_absence guard
wraps the body. -/
def vm_test (w : World) (pos : List String) (kwargs : List (String × String)) :
    List Act × Except String Unit :=
  check_vm_absence w kwargs (vm_test_body w pos kwargs)

theorem kwargsGet_eq {kwargs : List (String × String)} {key v : String}
    (h : List.lookup key kwargs = some v) (dflt : String) :
    kwargsGet kwargs key dflt = v := by
  unfold kwargsGet
  rw [h]

theorem check_vm_absence_not_found {α : Type} (w : World)
    (kwargs : List (String × String)) (n u : String)
    (hn : List.lookup "name" kwargs = some n)
    (hu : List.lookup "uri" kwargs = some u)
    (habs : vmExistsB (w.listings u) n = false)
    (callback : List Act × Except String α) :
    check_vm_absence w kwargs callback =
      ([Act.virshList u], Except.error ("Virtual machine " ++ n ++ " not found")) := by
  simp [check_vm_absence, vm_exists, kwargsGet_eq hn, kwargsGet_eq hu, habs]

theorem check_vm_absence_found {α : Type} (w : World)
    (kwargs : List (String × String)) {vm uri : String}
    (hvm : kwargsGet kwargs "name" "debian10" = vm)
    (huri : kwargsGet kwargs "uri" "qemu:///system" = uri)
    (hex : vmExistsB (w.listings uri) vm = true)
    (callback : List Act × Except String α) :
    check_vm_absence w kwargs callback =
      (Act.virshList uri :: callback.1, callback.2) := by
  simp [check_vm_absence, vm_exists, hvm, huri, hex]

theorem guarded_ops_not_found (w : World) (kwargs : List (String × String))
    (n u : String) (pos : List String)
    (hn : List.lookup "name" kwargs = some n)
    (hu : List.lookup "uri" kwargs = some u)
    (habs : vmExistsB (w.listings u) n = false) :
    vm_start w pos kwargs =
      ([Act.virshList u], Except.error ("Virtual machine " ++ n ++ " not found")) ∧
    vm_shutdown w pos kwargs =
      ([Act.virshList u], Except.error ("Virtual machine " ++ n ++ " not found")) ∧
    vm_destroy w pos kwargs =
      ([Act.virshList u], Except.error ("Virtual machine " ++ n ++ " not found")) ∧
    vm_ip w pos kwargs =
      ([Act.virshList u], Except.error ("Virtual machine " ++ n ++ " not found")) ∧
    vm_test w pos kwargs =
      ([Act.virshList u], Except.error ("Virtual machine " ++ n ++ " not found")) := by
  refine ⟨?_, ?_, ?_, ?_, ?_⟩
  · unfold vm_start
    exact check_vm_absence_not_found w kwargs n u hn hu habs _
  · unfold vm_shutdown
    exact check_vm_absence_not_found w kwargs n u hn hu habs _
  · unfold vm_destroy
    exact check_vm_absence_not_found w kwargs n u hn hu habs _
  · unfold vm_ip
    exact check_vm_absence_not_found w kwargs n u hn hu habs _
  · unfold vm_test
    exact check_vm_absence_not_found w kwargs n u hn hu habs _

/-- A concrete world for witnesses and counterexamples: the hypervisor
has exactly one defined VM, "debian10", and an otherwise empty
environment. -/
def w0 : World where
  listings := fun _ => "debian10\n"
  fsExists := fun _ => false
  readFile := fun _ => none
  listdir := fun _ => []
  leases := fun _ _ => []
  sshOut := fun _ _ => ""
  sshErr := fun _ _ => ""

/-- C1 counterexample: vm_start invoked positionally for the VM "ghost",
absent from the hypervisor, while the default "debian10" exists.  The
guard reads only keyword arguments, so it checks "debian10", passes, and
the hypervisor start command for ghost is issued with no not-found
error - contradicting the claim for this name and uri. -/
theorem c1_counterexample :
    vm_start w0 ["ghost"] [] =
      ([Act.virshList "qemu:///system", Act.virshStart "qemu:///system" "ghost"],
        Except.ok ()) ∧
    vmExistsB (w0.listings "qemu:///system") "ghost" = false ∧
    Act.isMutation (Act.virshStart "qemu:///system" "ghost") = true := by
  exact ⟨rfl, by decide, rfl⟩

/-- C1 amended: the check_vm_absence guard re-queries existence of the
VM named by the keyword arguments of the call (defaults "debian10" and
"qemu:///system"), not its positional arguments.  Whenever name and uri
are bound as keywords - as the CLI entry points bind them - and that VM
is absent, every guarded operation (vm_start, vm_shutdown, vm_destroy,
vm_ip, vm_test) raises the explicit not-found error and performs no
hypervisor mutation; positional calls, as vm_test itself makes, are
guarded against the defaults instead of the passed name. -/
theorem c1_amended_guard_kwargs (w : World) (kwargs : List (String × String))
    (n u : String) (pos : List String)
    (hn : List.lookup "name" kwargs = some n)
    (hu : List.lookup "uri" kwargs = some u)
    (habs : vmExistsB (w.listings u) n = false) :
    (vm_start w pos kwargs =
      ([Act.virshList u], Except.error ("Virtual machine " ++ n ++ " not found")) ∧
    vm_shutdown w pos kwargs =
      ([Act.virshList u], Except.error ("Virtual machine " ++ n ++ " not found")) ∧
    vm_destroy w pos kwargs =
      ([Act.virshList u], Except.error ("Virtual machine " ++ n ++ " not found")) ∧
    vm_ip w pos kwargs =
      ([Act.virshList u], Except.error ("Virtual machine " ++ n ++ " not found")) ∧
    vm_test w pos kwargs =
      ([Act.virshList u], Except.error ("Virtual machine " ++ n ++ " not found"))) ∧
    ([Act.virshList u]).all (fun a => !(Act.isMutation a)) = true := by
  exact ⟨guarded_ops_not_found w kwargs n u pos hn hu habs, rfl⟩

/-- C1 witness: the amended theorem applied to the absent VM "ghost"
with keyword binding, in the world w0. -/
theorem c1_amended_witness :
    vm_start w0 [] [("name", "ghost"), ("uri", "qemu:///system")] =
      ([Act.virshList "qemu:///system"],
        Except.error "Virtual machine ghost not found") ∧
    vm_test w0 [] [("name", "ghost"), ("uri", "qemu:///system")] =
      ([Act.virshList "qemu:///system"],
        Except.error "Virtual machine ghost not found") := by
  have h := c1_amended_guard_kwargs w0 [("name", "ghost"), ("uri", "qemu:///system")]
    "ghost" "qemu:///system" [] rfl rfl (by decide)
  exact ⟨h.1.1, h.1.2.2.2.2⟩

/-- C10: vm_exists returns true iff the name occurs as a whole line
exactly once in the hypervisor listing; if the listing contains the name
on more than one line, vm_exists returns false and every guarded
operation, invoked with that name and uri as keywords, fails with a
not-found error even though the name is present in the listing. -/
theorem c10_vm_exists_unique_line :
    (∀ listing name : String,
      vmExistsB listing name = true ↔ (pySplit listing "\n").count name = 1) ∧
    (∀ (w : World) (kwargs : List (String × String)) (n u : String)
        (pos : List String),
      List.lookup "name" kwargs = some n →
      List.lookup "uri" kwargs = some u →
      2 ≤ (pySplit (w.listings u) "\n").count n →
      n ∈ pySplit (w.listings u) "\n" ∧
      vmExistsB (w.listings u) n = false ∧
      vm_start w pos kwargs =
        ([Act.virshList u], Except.error ("Virtual machine " ++ n ++ " not found")) ∧
      vm_shutdown w pos kwargs =
        ([Act.virshList u], Except.error ("Virtual machine " ++ n ++ " not found")) ∧
      vm_destroy w pos kwargs =
        ([Act.virshList u], Except.error ("Virtual machine " ++ n ++ " not found")) ∧
      vm_ip w pos kwargs =
        ([Act.virshList u], Except.error ("Virtual machine " ++ n ++ " not found")) ∧
      vm_test w pos kwargs =
        ([Act.virshList u], Except.error ("Virtual machine " ++ n ++ " not found"))) := by
  constructor
  · intro listing name
    simp [vmExistsB]
  · intro w kwargs n u pos hn hu hcount
    have habs : vmExistsB (w.listings u) n = false := by
      simp only [vmExistsB, beq_eq_false_iff_ne, ne_eq]
      omega
    have hmem : n ∈ pySplit (w.listings u) "\n" := by
      by_contra hmem
      have := List.count_eq_zero.mpr hmem
      omega
    obtain ⟨h1, h2, h3, h4, h5⟩ := guarded_ops_not_found w kwargs n u pos hn hu habs
    exact ⟨hmem, habs, h1, h2, h3, h4, h5⟩

/-- A world whose hypervisor listing repeats the same VM name twice. -/
def wdup : World :=
  { w0 with listings := fun _ => "vm\nvm\n" }

/-- C10 witness: a listing holding the line "vm" twice makes vm_exists
false and vm_destroy fail with not-found. -/
theorem c10_witness :
    vmExistsB (wdup.listings "qemu:///system") "vm" = false ∧
    vm_destroy wdup [] [("name", "vm"), ("uri", "qemu:///system")] =
      ([Act.virshList "qemu:///system"], Except.error "Virtual machine vm not found") := by
  have h := c10_vm_exists_unique_line.2 wdup [("name", "vm"), ("uri", "qemu:///system")]
    "vm" "qemu:///system" [] rfl rfl (by decide)
  exact ⟨h.2.1, h.2.2.2.2.1⟩

/-- C5: when the VM name already exists on the hypervisor (listed as a
whole line, exactly once, as a real hypervisor lists each defined
domain), vm-create raises an already-exists error and never invokes the
install command; when the name is free but the disk image path does not
exist, vm-create fails with a file-not-found error, again with no
hypervisor mutation. -/
theorem c5_vm_create_guards (w : World) (img uri name : String)
    (vcpus memory : Nat) (os_variant : String) :
    ((pySplit (w.listings uri) "\n").count name = 1 →
      vm_create w img uri name vcpus memory os_variant =
        ([Act.virshList uri],
          Except.error ("Virtual machine " ++ name ++ " already exists")) ∧
      (vm_create w img uri name vcpus memory os_variant).1.all
        (fun a => !(Act.isMutation a)) = true) ∧
    ((pySplit (w.listings uri) "\n").count name = 0 → w.fsExists img = false →
      vm_create w img uri name vcpus memory os_variant =
        ([Act.virshList uri], Except.error ("FileNotFoundError: " ++ img)) ∧
      (vm_create w img uri name vcpus memory os_variant).1.all
        (fun a => !(Act.isMutation a)) = true) := by
  constructor
  · intro hc
    have hex : vmExistsB (w.listings uri) name = true := by
      simp [vmExistsB, hc]
    have heq : vm_create w img uri name vcpus memory os_variant =
        ([Act.virshList uri],
          Except.error ("Virtual machine " ++ name ++ " already exists")) := by
      simp [vm_create, vm_exists, hex]
    exact ⟨heq, by rw [heq]; rfl⟩
  · intro hc himg
    have hex : vmExistsB (w.listings uri) name = false := by
      simp only [vmExistsB, beq_eq_false_iff_ne, ne_eq]
      omega
    have heq : vm_create w img uri name vcpus memory os_variant =
        ([Act.virshList uri], Except.error ("FileNotFoundError: " ++ img)) := by
      simp [vm_create, vm_exists, hex, himg]
    exact ⟨heq, by rw [heq]; rfl⟩

/-- C5 witness: the guard theorem applied in w0 to the existing name
"debian10" and to the free name "ghost" with a missing image path. -/
theorem c5_witness :
    vm_create w0 "disk.qcow2" "qemu:///system" "debian10" 1 2048 "debian10" =
      ([Act.virshList "qemu:///system"],
        Except.error "Virtual machine debian10 already exists") ∧
    vm_create w0 "missing.qcow2" "qemu:///system" "ghost" 1 2048 "debian10" =
      ([Act.virshList "qemu:///system"],
        Except.error "FileNotFoundError: missing.qcow2") := by
  refine ⟨((c5_vm_create_guards w0 "disk.qcow2" "qemu:///system" "debian10"
      1 2048 "debian10").1 (by decide)).1,
    ((c5_vm_create_guards w0 "missing.qcow2" "qemu:///system" "ghost"
      1 2048 "debian10").2 (by decide) rfl).1⟩

theorem argGet_nil (i : Nat) (kwargs : List (String × String)) (key dflt : String) :
    argGet [] i kwargs key dflt = kwargsGet kwargs key dflt := by
  simp [argGet]

/-- C6: an invocation of vm-test whose package directory holds no file
matching linux-headers-<version>* ending in .deb raises a not-found
error ("no kernel headers") and never issues the VM start command. -/
theorem c6_vm_test_no_headers (w : World) (kwargs : List (String × String))
    (n u v : String)
    (hn : List.lookup "name" kwargs = some n)
    (hu : List.lookup "uri" kwargs = some u)
    (hg : vmExistsB (w.listings u) n = true)
    (hv : _kernel_version w.readFile (kwargsGet kwargs "kernel" "") = Except.ok v)
    (hd : w.fsExists (kwargsGet kwargs "debpkg" "") = true)
    (hh : ∀ f ∈ w.listdir (kwargsGet kwargs "debpkg" ""), headerMatches v f = false) :
    vm_test w [] kwargs = ([Act.virshList u], Except.error "no kernel headers") ∧
    (vm_test w [] kwargs).1.all (fun a => !(Act.isStart a)) = true := by
  have hfil : (w.listdir (kwargsGet kwargs "debpkg" "")).filter (headerMatches v) = [] :=
    List.filter_eq_nil_iff.mpr (by simpa using hh)
  have hbody : vm_test_body w [] kwargs = ([], Except.error "no kernel headers") := by
    simp only [vm_test_body, argGet_nil, hv, hd, discoverPackages, hfil]
    simp
  have heq : vm_test w [] kwargs =
      ([Act.virshList u], Except.error "no kernel headers") := by
    unfold vm_test
    rw [check_vm_absence_found w kwargs (kwargsGet_eq hn _) (kwargsGet_eq hu _) hg]
    rw [hbody]
  exact ⟨heq, by rw [heq]; rfl⟩

/-- The kernel Makefile content used by the vm_test witnesses. -/
def mkWitness : String := "L\nVERSION = 5\nPATCHLEVEL = 10\nSUBLEVEL = 0\n"

/-- A world for the C6 witness: kernel tree at "k", package directory
"pkgs" holding an image package but no header package. -/
def w6 : World :=
  { w0 with
    readFile := fun p => if p == "k/Makefile" then some mkWitness else none
    fsExists := fun p => p == "pkgs"
    listdir := fun _ => ["linux-image-5.10.0_1_amd64.deb", "readme.txt"] }

/-- C6 witness: the concrete no-headers run fails before any start. -/
theorem c6_witness :
    vm_test w6 []
        [("kernel", "k"), ("debpkg", "pkgs"), ("name", "debian10"),
         ("uri", "qemu:///system")] =
      ([Act.virshList "qemu:///system"], Except.error "no kernel headers") := by
  exact (c6_vm_test_no_headers w6
    [("kernel", "k"), ("debpkg", "pkgs"), ("name", "debian10"),
     ("uri", "qemu:///system")]
    "debian10" "qemu:///system" "5.10.0" rfl rfl (by decide) rfl rfl (by decide)).1

/-- C7: at the end of vm-test, if the collected kernel-log output has
any (non-empty) error lines, the run prints, as its final action, a
warning carrying the exact count of non-empty lines and returns without
shutting the VM down; if the collected output is empty, the run ends by
shutting the VM down.  The hypotheses say the run reaches the log stage:
the entry guard passes for the keyword-bound name and uri, the version
and both packages resolve, the inner positional guards (which check the
default "debian10" at the default uri) pass, and a DHCP lease matches
the hostname. -/
theorem c7_vm_test_log_decision (w : World) (kwargs : List (String × String))
    (n u v header image : String) (lease : Lease) (rest : List Lease)
    (hn : List.lookup "name" kwargs = some n)
    (hu : List.lookup "uri" kwargs = some u)
    (hg : vmExistsB (w.listings u) n = true)
    (hv : _kernel_version w.readFile (kwargsGet kwargs "kernel" "") = Except.ok v)
    (hd : w.fsExists (kwargsGet kwargs "debpkg" "") = true)
    (hpkg : discoverPackages v (w.listdir (kwargsGet kwargs "debpkg" "")) =
      Except.ok (header, image))
    (hg2 : vmExistsB (w.listings "qemu:///system") "debian10" = true)
    (hlease : (w.leases u (kwargsGet kwargs "network" "default")).filter
        (fun l => l.hostname == kwargsGet kwargs "hostname" "debian") =
      lease :: rest) :
    ((∃ l ∈ pySplit (w.sshOut lease.ipaddr dmesgCmd) "\n", l ≠ "") →
      (vm_test w [] kwargs).2 = Except.ok () ∧
      (vm_test w [] kwargs).1.getLast? =
        some (Act.warn ("WARN: there are " ++
          toString (((pySplit (w.sshOut lease.ipaddr dmesgCmd) "\n").filter
            (fun line => line != "")).length) ++ " boot errors")) ∧
      (vm_test w [] kwargs).1.all (fun a => !(Act.isShutdown a)) = true) ∧
    (w.sshOut lease.ipaddr dmesgCmd = "" →
      (vm_test w [] kwargs).2 = Except.ok () ∧
      (vm_test w [] kwargs).1.getLast? = some (Act.virshShutdown u n)) := by
  have hstart : vm_start w [n, u] [] =
      ([Act.virshList "qemu:///system", Act.virshStart u n], Except.ok ()) := by
    unfold vm_start
    rw [check_vm_absence_found w [] rfl rfl hg2]
    rfl
  have hshut : vm_shutdown w [n, u] [] =
      ([Act.virshList "qemu:///system", Act.virshShutdown u n], Except.ok ()) := by
    unfold vm_shutdown
    rw [check_vm_absence_found w [] rfl rfl hg2]
    rfl
  have hip : vm_ip w
      [n, kwargsGet kwargs "hostname" "debian", u,
       kwargsGet kwargs "network" "default"] [] =
      ([Act.virshList "qemu:///system",
        Act.leasesQuery u (kwargsGet kwargs "network" "default")],
       Except.ok lease.ipaddr) := by
    unfold vm_ip
    rw [check_vm_absence_found w [] rfl rfl hg2]
    simp only [argGet, List.getElem?_cons_zero, List.getElem?_cons_succ, hlease]
    rfl
  constructor
  · intro hex1
    have he : w.sshOut lease.ipaddr dmesgCmd ≠ "" := by
      intro he0
      rw [he0] at hex1
      revert hex1
      decide
    have hbne : (w.sshOut lease.ipaddr dmesgCmd != "") = true := by
      simpa using he
    refine ⟨?_, ?_, ?_⟩ <;>
    · unfold vm_test
      rw [check_vm_absence_found w kwargs (kwargsGet_eq hn _) (kwargsGet_eq hu _) hg]
      simp only [vm_test_body, argGet, List.getElem?_nil, kwargsGet_eq hn,
        kwargsGet_eq hu, hv, hd, hpkg, hstart, hip, hshut, hbne]
      rfl
  · intro he
    have hbne : (w.sshOut lease.ipaddr dmesgCmd != "") = false := by
      simp [he]
    refine ⟨?_, ?_⟩ <;>
    · unfold vm_test
      rw [check_vm_absence_found w kwargs (kwargsGet_eq hn _) (kwargsGet_eq hu _) hg]
      simp only [vm_test_body, argGet, List.getElem?_nil, kwargsGet_eq hn,
        kwargsGet_eq hu, hv, hd, hpkg, hstart, hip, hshut, hbne]
      rfl

/-- A world for the C7 witness in which the whole vm-test pipeline
succeeds and the collected kernel log is empty. -/
def w7 : World where
  listings := fun _ => "debian10\n"
  fsExists := fun p => p == "pkgs"
  readFile := fun p => if p == "k/Makefile" then some mkWitness else none
  listdir := fun _ => ["linux-headers-5.10.0-1_amd64.deb", "linux-image-5.10.0_1_amd64.deb"]
  leases := fun _ _ => [{ hostname := "debian", ipaddr := "192.168.122.5" }]
  sshOut := fun _ _ => ""
  sshErr := fun _ _ => ""

/-- The same world with a kernel log reporting two error lines. -/
def w7b : World :=
  { w7 with sshOut := fun _ cmd => if cmd == dmesgCmd then "err1\nerr2\n" else "" }

/-- The keyword arguments of the C7 witness runs. -/
def kw7 : List (String × String) :=
  [("kernel", "k"), ("debpkg", "pkgs"), ("name", "debian10"), ("uri", "qemu:///system")]

/-- C7 witness: with an empty log the run ends in a shutdown; with two
error lines it ends in the warning "WARN: there are 2 boot errors" and
still returns successfully, the VM left running. -/
theorem c7_witness :
    (vm_test w7 [] kw7).1.getLast? =
      some (Act.virshShutdown "qemu:///system" "debian10") ∧
    (vm_test w7b [] kw7).1.getLast? =
      some (Act.warn "WARN: there are 2 boot errors") ∧
    (vm_test w7b [] kw7).2 = Except.ok () := by
  have hempty := (c7_vm_test_log_decision w7 kw7 "debian10" "qemu:///system"
    "5.10.0" "linux-headers-5.10.0-1_amd64.deb" "linux-image-5.10.0_1_amd64.deb"
    { hostname := "debian", ipaddr := "192.168.122.5" } []
    rfl rfl (by decide) rfl rfl rfl (by decide) rfl).2 rfl
  have herrs := (c7_vm_test_log_decision w7b kw7 "debian10" "qemu:///system"
    "5.10.0" "linux-headers-5.10.0-1_amd64.deb" "linux-image-5.10.0_1_amd64.deb"
    { hostname := "debian", ipaddr := "192.168.122.5" } []
    rfl rfl (by decide) rfl rfl rfl (by decide) rfl).1
    ⟨"err1", by decide, by decide⟩
  exact ⟨hempty.2, herrs.2.1, herrs.1⟩

/-- A filesystem entry of a patch tree: a file with its content, or a
directory with its named entries in listing order. -/
inductive FsEntry where
  | file (content : String)
  | directory (entries : List (String × FsEntry))
deriving Repr

/-- A patch-tool invocation `sh.patch(*args, _in=content)`. -/
inductive PatchAct where
  | patch (args : List String) (content : String)
deriving DecidableEq, Repr

/-- The argument vector of the patch tool: change into the kernel root,
strip level 1, zero fuzz, and the reverse flag exactly when reversal is
requested. -/
def patchArgs (kernel : String) (reverse : Bool) : List String :=
  ["-d", kernel, "-p1", "-F0"] ++ (if reverse then ["-R"] else [])

/-- The target filename: append ".patch" when the target does not
already end in it. -/
def patchFileName (n : String) : String :=
  if pyEndsWith n ".patch" then n else n ++ ".patch"

/-- The loop over targets of _kernel_patch; `recurse` is the recursive
call on the entries of a subdirectory (with one budget unit consumed).  Each
target, stripped of surrounding whitespace, is resolved as a direct
named entry of the patch directory (the model rendering of
`os.path.join(patches, target)` plus `os.path.isdir` / `open`): a
subdirectory is recursed into, anything else is opened as a patch file,
appending ".patch" when the name lacks it, and applied. -/
def patchTargets (recurse : List (String × FsEntry) → Except String (List PatchAct))
    (kernel : String) (entries : List (String × FsEntry)) (reverse : Bool) :
    List String → Except String (List PatchAct)
  | [] => Except.ok []
  | target :: rest =>
    let name := pyStrip target
    let acts1 :=
      match List.lookup name entries with
      | some (FsEntry.directory sub) => recurse sub
      | _ =>
        let fname := patchFileName name
        match List.lookup fname entries with
        | some (FsEntry.file content) =>
          Except.ok [PatchAct.patch (patchArgs kernel reverse) content]
        | some (FsEntry.directory _) => Except.error ("IsADirectoryError: " ++ fname)
        | none => Except.error ("FileNotFoundError: " ++ fname)
    match acts1 with
    | Except.error e => Except.error e
    | Except.ok a1 =>
      match patchTargets recurse kernel entries reverse rest with
      | Except.error e => Except.error e
      | Except.ok a2 => Except.ok (a1 ++ a2)

/-- Embedding of _kernel_patch on a patch-tree directory.  Targets come
from the ".config" manifest (one entry per line, `readlines`) when the
manifest exists, else from the directory listing in listing order.  The
fuel bounds the recursion depth: the Python code recurses unboundedly
(and loops forever on a target resolving to the directory itself), so a
run that exhausts the budget is reported as a recursion error. -/
def _kernel_patch : Nat → String → FsEntry → Bool → Except String (List PatchAct)
  | 0, _, _, _ => Except.error "RecursionError: maximum recursion depth exceeded"
  | _ + 1, _, FsEntry.file _, _ => Except.error "NotADirectoryError"
  | fuel + 1, kernel, FsEntry.directory entries, reverse =>
    match List.lookup ".config" entries with
    | some (FsEntry.file c) =>
      patchTargets (fun sub => _kernel_patch fuel kernel (FsEntry.directory sub) reverse)
        kernel entries reverse (pyLines c)
    | some (FsEntry.directory _) => Except.error "IsADirectoryError: .config"
    | none =>
      patchTargets (fun sub => _kernel_patch fuel kernel (FsEntry.directory sub) reverse)
        kernel entries reverse (entries.map Prod.fst)

theorem pyEndsWith_patchFileName (n : String) :
    pyEndsWith (patchFileName n) ".patch" = true := by
  unfold patchFileName
  by_cases h : pyEndsWith n ".patch" = true
  · rw [if_pos h]
    exact h
  · rw [if_neg h]
    unfold pyEndsWith
    rw [String.data_append]
    exact List.isSuffixOf_iff_suffix.mpr (List.suffix_append _ _)

theorem patchFileName_ne_config (n : String) : patchFileName n ≠ ".config" := by
  intro h
  have hp := pyEndsWith_patchFileName n
  rw [h] at hp
  exact absurd hp (by decide)

theorem patchFileName_of_ends (n : String) (h : pyEndsWith n ".patch" = true) :
    patchFileName n = n := by
  unfold patchFileName
  rw [if_pos h]

theorem lookup_map_file {ts : List (String × String)} {p : String × String}
    (hp : p ∈ ts) (hnd : (ts.map Prod.fst).Nodup) :
    List.lookup p.1 (ts.map (fun q => (q.1, FsEntry.file q.2))) =
      some (FsEntry.file p.2) := by
  induction ts with
  | nil => cases hp
  | cons q ts ih =>
    rcases List.mem_cons.mp hp with rfl | hp'
    · simp [List.lookup]
    · have hq : q.1 ≠ p.1 := by
        intro he
        have : p.1 ∈ ts.map Prod.fst := List.mem_map_of_mem Prod.fst hp'
        rw [← he] at this
        exact (List.nodup_cons.mp hnd).1 this
      simp only [List.map_cons, List.lookup]
      rw [beq_eq_false_iff_ne.mpr (Ne.symm hq)]
      exact ih hp' (List.nodup_cons.mp hnd).2

theorem lookup_map_file_none {ts : List (String × String)} {n : String}
    (hne : ∀ p ∈ ts, p.1 ≠ n) :
    List.lookup n (ts.map (fun q => (q.1, FsEntry.file q.2))) = none := by
  induction ts with
  | nil => rfl
  | cons q ts ih =>
    simp only [List.map_cons, List.lookup]
    rw [beq_eq_false_iff_ne.mpr (Ne.symm (hne q (by simp)))]
    exact ih fun p hp => hne p (by simp [hp])

theorem patchTargets_files
    (recurse : List (String × FsEntry) → Except String (List PatchAct))
    (kernel : String) (E : List (String × FsEntry)) (reverse : Bool) :
    ∀ (targets : List String) (ts : List (String × String)),
      targets.map pyStrip = ts.map Prod.fst →
      (∀ p ∈ ts,
        List.lookup p.1 E =
          (if pyEndsWith p.1 ".patch" = true then some (FsEntry.file p.2) else none) ∧
        List.lookup (patchFileName p.1) E = some (FsEntry.file p.2)) →
      patchTargets recurse kernel E reverse targets =
        Except.ok (ts.map fun p => PatchAct.patch (patchArgs kernel reverse) p.2)
  | [], [], _, _ => rfl
  | [], q :: ts, hmap, _ => by simp at hmap
  | t :: targets, [], hmap, _ => by simp at hmap
  | t :: targets, q :: ts, hmap, hlook => by
    simp only [List.map_cons, List.cons.injEq] at hmap
    obtain ⟨hq, hrest⟩ := hmap
    obtain ⟨hA, hB⟩ := hlook q (by simp)
    have ih := patchTargets_files recurse kernel E reverse targets ts hrest
      (fun p hp => hlook p (by simp [hp]))
    simp only [patchTargets, hq, ih]
    by_cases hE : pyEndsWith q.1 ".patch" = true
    · rw [if_pos hE] at hA
      simp [hA, patchFileName_of_ends q.1 hE, hB]
    · rw [if_neg hE] at hA
      simp [hA, hB]

/-- C4: for every patch-tree directory with a ".config" manifest, the
patch operation processes targets exactly in manifest line order, each
file target applied with strip level 1, zero fuzz, the ".patch" suffix
appended exactly when missing, and the reverse flag exactly when
requested (part 1); a directory target is recursed into (part 3);
without a manifest the targets are the directory listing, in the
listing order of the model (part 2). -/
theorem c4_patch_order_and_flags :
    (∀ (fuel : Nat) (kernel : String) (reverse : Bool) (manifest : String)
        (ts : List (String × String)),
      (pyLines manifest).map pyStrip = ts.map Prod.fst →
      (∀ p ∈ ts, p.1 ≠ ".config") →
      (ts.map (fun q => patchFileName q.1)).Nodup →
      _kernel_patch (fuel + 1) kernel
          (FsEntry.directory ((".config", FsEntry.file manifest) ::
            ts.map (fun q => (patchFileName q.1, FsEntry.file q.2)))) reverse =
        Except.ok (ts.map fun p => PatchAct.patch (patchArgs kernel reverse) p.2)) ∧
    (∀ (fuel : Nat) (kernel : String) (reverse : Bool)
        (ts : List (String × String)),
      (∀ p ∈ ts, pyEndsWith p.1 ".patch" = true ∧ pyStrip p.1 = p.1) →
      (ts.map Prod.fst).Nodup →
      _kernel_patch (fuel + 1) kernel
          (FsEntry.directory (ts.map (fun q => (q.1, FsEntry.file q.2)))) reverse =
        Except.ok (ts.map fun p => PatchAct.patch (patchArgs kernel reverse) p.2)) ∧
    (∀ (fuel : Nat) (kernel : String) (reverse : Bool)
        (sub : List (String × FsEntry)),
      _kernel_patch (fuel + 1) kernel
          (FsEntry.directory [(".config", FsEntry.file "sub"),
            ("sub", FsEntry.directory sub)]) reverse =
        _kernel_patch fuel kernel (FsEntry.directory sub) reverse) := by
  refine ⟨?_, ?_, ?_⟩
  · intro fuel kernel reverse manifest ts hmap hcfg hnd
    have hstep : _kernel_patch (fuel + 1) kernel
        (FsEntry.directory ((".config", FsEntry.file manifest) ::
          ts.map (fun q => (patchFileName q.1, FsEntry.file q.2)))) reverse =
      patchTargets
        (fun sub => _kernel_patch fuel kernel (FsEntry.directory sub) reverse)
        kernel
        ((".config", FsEntry.file manifest) ::
          ts.map (fun q => (patchFileName q.1, FsEntry.file q.2)))
        reverse (pyLines manifest) := by
      simp [_kernel_patch, List.lookup]
    rw [hstep]
    apply patchTargets_files _ kernel _ reverse (pyLines manifest) ts hmap
    intro p hp
    have hmem : (patchFileName p.1, p.2) ∈
        ts.map (fun q => (patchFileName q.1, q.2)) := by
      exact List.mem_map_of_mem (fun q => (patchFileName q.1, q.2)) hp
    have hndm : ((ts.map (fun q => (patchFileName q.1, q.2))).map Prod.fst).Nodup := by
      simpa [List.map_map, Function.comp] using hnd
    have hfiles : (ts.map (fun q => (patchFileName q.1, q.2))).map
        (fun q => (q.1, FsEntry.file q.2)) =
        ts.map (fun q => (patchFileName q.1, FsEntry.file q.2)) := by
      simp [List.map_map]
    have hBfile : List.lookup (patchFileName p.1)
        (ts.map (fun q => (patchFileName q.1, FsEntry.file q.2))) =
        some (FsEntry.file p.2) := by
      rw [← hfiles]
      exact lookup_map_file (p := (patchFileName p.1, p.2)) hmem hndm
    constructor
    · by_cases hE : pyEndsWith p.1 ".patch" = true
      · rw [if_pos hE]
        simp only [List.lookup]
        rw [beq_eq_false_iff_ne.mpr (hcfg p hp)]
        rw [show p.1 = patchFileName p.1 from (patchFileName_of_ends p.1 hE).symm]
        exact hBfile
      · rw [if_neg hE]
        simp only [List.lookup]
        rw [beq_eq_false_iff_ne.mpr (hcfg p hp)]
        rw [← hfiles]
        apply lookup_map_file_none
        intro r hr
        simp only [List.mem_map] at hr
        obtain ⟨q, _, rfl⟩ := hr
        intro he
        have he' : patchFileName q.1 = p.1 := he
        have hpe := pyEndsWith_patchFileName q.1
        rw [he'] at hpe
        rw [hpe] at hE
        exact hE rfl
    · simp only [List.lookup]
      rw [beq_eq_false_iff_ne.mpr (patchFileName_ne_config p.1)]
      exact hBfile
  · intro fuel kernel reverse ts hts hnd
    have hnocfg : List.lookup ".config"
        (ts.map (fun q => (q.1, FsEntry.file q.2))) = none := by
      apply lookup_map_file_none
      intro p hp he
      have hpe := (hts p hp).1
      rw [he] at hpe
      exact absurd hpe (by decide)
    have hstep : _kernel_patch (fuel + 1) kernel
        (FsEntry.directory (ts.map (fun q => (q.1, FsEntry.file q.2)))) reverse =
      patchTargets
        (fun sub => _kernel_patch fuel kernel (FsEntry.directory sub) reverse)
        kernel (ts.map (fun q => (q.1, FsEntry.file q.2))) reverse
        ((ts.map (fun q => (q.1, FsEntry.file q.2))).map Prod.fst) := by
      simp [_kernel_patch, hnocfg]
    rw [hstep]
    have hkeys : (ts.map (fun q => (q.1, FsEntry.file q.2))).map Prod.fst =
        ts.map Prod.fst := by
      simp [List.map_map]
    rw [hkeys]
    apply patchTargets_files _ kernel _ reverse (ts.map Prod.fst) ts
    · have : ∀ p ∈ ts, pyStrip p.1 = p.1 := fun p hp => (hts p hp).2
      rw [List.map_map]
      exact List.map_congr_left fun p hp => this p hp
    · intro p hp
      have hE := (hts p hp).1
      have hBfile : List.lookup p.1 (ts.map (fun q => (q.1, FsEntry.file q.2))) =
          some (FsEntry.file p.2) := lookup_map_file hp hnd
      refine ⟨by rw [if_pos hE]; exact hBfile, ?_⟩
      rw [patchFileName_of_ends p.1 hE]
      exact hBfile
  · intro fuel kernel reverse sub
    have key : _kernel_patch (fuel + 1) kernel
        (FsEntry.directory [(".config", FsEntry.file "sub"),
          ("sub", FsEntry.directory sub)]) reverse =
      (match _kernel_patch fuel kernel (FsEntry.directory sub) reverse with
       | Except.error e => Except.error e
       | Except.ok a1 => Except.ok (a1 ++ [])) := rfl
    rw [key]
    rcases h : _kernel_patch fuel kernel (FsEntry.directory sub) reverse with e | a
    · rfl
    · simp

/-- C4 witness: a manifest listing "b" before "a" applies b.patch then
a.patch in reverse mode with the -R flag; a manifest-free directory
applies its listing in order; a directory target recurses. -/
theorem c4_witness :
    _kernel_patch 1 "k"
        (FsEntry.directory [(".config", FsEntry.file "b\na"),
          ("b.patch", FsEntry.file "B"), ("a.patch", FsEntry.file "A")]) true =
      Except.ok [PatchAct.patch ["-d", "k", "-p1", "-F0", "-R"] "B",
        PatchAct.patch ["-d", "k", "-p1", "-F0", "-R"] "A"] ∧
    _kernel_patch 1 "k"
        (FsEntry.directory [("y.patch", FsEntry.file "Y"),
          ("x.patch", FsEntry.file "X")]) false =
      Except.ok [PatchAct.patch ["-d", "k", "-p1", "-F0"] "Y",
        PatchAct.patch ["-d", "k", "-p1", "-F0"] "X"] ∧
    _kernel_patch 2 "k"
        (FsEntry.directory [(".config", FsEntry.file "sub"),
          ("sub", FsEntry.directory [("p.patch", FsEntry.file "P")])]) false =
      Except.ok [PatchAct.patch ["-d", "k", "-p1", "-F0"] "P"] := by
  refine ⟨?_, ?_, ?_⟩
  · have h := c4_patch_order_and_flags.1 0 "k" true "b\na" [("b", "B"), ("a", "A")]
      (by decide) (by decide) (by decide)
    exact h.trans (by rfl)
  · have h := c4_patch_order_and_flags.2.1 0 "k" false [("y.patch", "Y"), ("x.patch", "X")]
      (by decide) (by decide)
    exact h.trans (by rfl)
  · have h := c4_patch_order_and_flags.2.2 1 "k" false [("p.patch", FsEntry.file "P")]
    exact h.trans (by rfl)

end KernelCI
